import Mathlib

/-!
Verification of the real-estate property-search agent (src/agent.py, src/app.py).

The embedding models Python/JSON values as `JValue`, `json.loads` as a fuel-based
recursive-descent JSON parser (`jsonParse`, numerals restricted to integers),
MongoDB documents as association lists, and the two presentation surfaces
(the CLI loop of `property_search_flow` and the Streamlit session of app.py)
as explicit step functions on session state recording their observable effects
(language-model calls, database queries, printed/stored output, history).
-/

/-- JSON-ish values, covering the Python values the program manipulates
(dicts, lists, strings, integers, booleans, None).  JSON numerals are
modelled as integers; floating point is out of scope of the embedding. -/
inductive JValue where
  | null : JValue
  | bool (b : Bool) : JValue
  | num (n : Int) : JValue
  | str (s : String) : JValue
  | arr (elems : List JValue) : JValue
  | obj (fields : List (String × JValue)) : JValue

mutual
/-- Structural equality on `JValue`, modelling Python `==` on the values that
occur in this program (the program only ever compares against strings). -/
def jvalBeq : JValue → JValue → Bool
  | JValue.null, JValue.null => true
  | JValue.bool a, JValue.bool b => a == b
  | JValue.num a, JValue.num b => a == b
  | JValue.str a, JValue.str b => a == b
  | JValue.arr a, JValue.arr b => jvalListBeq a b
  | JValue.obj a, JValue.obj b => jvalObjBeq a b
  | _, _ => false

def jvalListBeq : List JValue → List JValue → Bool
  | [], [] => true
  | a :: as, b :: bs => jvalBeq a b && jvalListBeq as bs
  | _, _ => false

def jvalObjBeq : List (String × JValue) → List (String × JValue) → Bool
  | [], [] => true
  | (k1, v1) :: as, (k2, v2) :: bs => k1 == k2 && jvalBeq v1 v2 && jvalObjBeq as bs
  | _, _ => false
end

instance : BEq JValue := ⟨jvalBeq⟩

/-- Python dict lookup `d.get(k)` / `d[k]` on the association list backing an
object.  A later binding shadows an earlier one (Python dict semantics:
for duplicate JSON keys the last one wins). -/
def dictGet (fields : List (String × JValue)) (k : String) : Option JValue :=
  match fields with
  | [] => none
  | (k', v) :: rest =>
    match dictGet rest k with
    | some w => some w
    | none => if k' = k then some v else none

/-- Python `k in d` on an object's association list. -/
def hasKey (fields : List (String × JValue)) (k : String) : Bool :=
  fields.any (fun p => p.1 = k)

/-- Tests whether an optional value is the given string, modelling Python
`d.get(k) == s` (absent key gives `None`, which is never equal to a string). -/
def isStrVal (v : Option JValue) (s : String) : Bool :=
  match v with
  | some (JValue.str t) => t = s
  | _ => false

mutual
/-- Python `str()` of a value, for scalar values as the program renders them
in f-strings; containers are rendered repr-style. -/
def pyStr : JValue → String
  | JValue.null => "None"
  | JValue.bool b => if b then "True" else "False"
  | JValue.num n => toString n
  | JValue.str s => s
  | JValue.arr xs => "[" ++ pyStrList xs ++ "]"
  | JValue.obj fs => "\x7b" ++ pyStrObj fs ++ "\x7d"

def pyStrInner : JValue → String
  | JValue.null => "None"
  | JValue.bool b => if b then "True" else "False"
  | JValue.num n => toString n
  | JValue.str s => "'" ++ s ++ "'"
  | JValue.arr xs => "[" ++ pyStrList xs ++ "]"
  | JValue.obj fs => "\x7b" ++ pyStrObj fs ++ "\x7d"

def pyStrList : List JValue → String
  | [] => ""
  | [x] => pyStrInner x
  | x :: xs => pyStrInner x ++ ", " ++ pyStrList xs

def pyStrObj : List (String × JValue) → String
  | [] => ""
  | [(k, v)] => "'" ++ k ++ "': " ++ pyStrInner v
  | (k, v) :: fs => "'" ++ k ++ "': " ++ pyStrInner v ++ ", " ++ pyStrObj fs
end

/-- Python truthiness of a value (`if x:`). -/
def pyTruthy : JValue → Bool
  | JValue.null => false
  | JValue.bool b => b
  | JValue.num n => !(n == 0)
  | JValue.str s => !(s == "")
  | JValue.arr xs => !xs.isEmpty
  | JValue.obj fs => !fs.isEmpty

/-- Characters stripped by Python `str.strip()`. -/
def pySpace (c : Char) : Bool :=
  c = ' ' || c = '\t' || c = '\n' || c = '\r' || c = '\x0b' || c = '\x0c'

/-- Python `str.strip()`. -/
def pyStrip (s : String) : String :=
  ⟨((s.data.dropWhile pySpace).reverse.dropWhile pySpace).reverse⟩

/-- Python `str.lower()` (ASCII, which is all this program compares). -/
def pyLower (s : String) : String :=
  ⟨s.data.map Char.toLower⟩

/-- JSON whitespace skipping for the parser. -/
def skipWs : List Char → List Char
  | c :: cs => if c = ' ' || c = '\t' || c = '\n' || c = '\r' then skipWs cs else c :: cs
  | [] => []

/-- String-body scanner for the JSON parser; the flag records that the
previous character was a backslash. -/
def scanStr : Bool → List Char → List Char → Except String (String × List Char)
  | _, _, [] => Except.error "Unterminated string"
  | false, acc, c :: cs =>
    if c = '"' then Except.ok (⟨acc.reverse⟩, cs)
    else if c = '\\' then scanStr true acc cs
    else scanStr false (c :: acc) cs
  | true, acc, c :: cs =>
    if c = '"' then scanStr false ('"' :: acc) cs
    else if c = '\\' then scanStr false ('\\' :: acc) cs
    else if c = '/' then scanStr false ('/' :: acc) cs
    else if c = 'n' then scanStr false ('\n' :: acc) cs
    else if c = 't' then scanStr false ('\t' :: acc) cs
    else if c = 'r' then scanStr false ('\r' :: acc) cs
    else if c = 'b' then scanStr false ('\x08' :: acc) cs
    else if c = 'f' then scanStr false ('\x0c' :: acc) cs
    else Except.error "Invalid escape"

/-- Digit scanner for the JSON parser. -/
def scanDigits (acc : Nat) : List Char → (Nat × List Char)
  | c :: cs => if c.isDigit then scanDigits (acc * 10 + (c.toNat - 48)) cs else (acc, c :: cs)
  | [] => (acc, [])

/-- Matches a literal keyword tail such as `rue` of `true`. -/
def dropLit : List Char → List Char → Option (List Char)
  | [], cs => some cs
  | l :: ls, c :: cs => if c = l then dropLit ls cs else none
  | _ :: _, [] => none

mutual
/-- Recursive-descent JSON value parser.  The fuel argument strictly
decreases on every recursive call; `jsonParse` supplies enough fuel for any
input, so the `fuel = 0` branch is unreachable from `jsonParse`. -/
def parseVal : Nat → List Char → Except String (JValue × List Char)
  | 0, _ => Except.error "Nesting too deep"
  | fuel + 1, cs =>
    match skipWs cs with
    | [] => Except.error "Expecting value"
    | c :: rest =>
      if c = '"' then
        match scanStr false [] rest with
        | Except.error e => Except.error e
        | Except.ok (s, cs') => Except.ok (JValue.str s, cs')
      else if c = Char.ofNat 123 then parseMembers fuel (skipWs rest) []
      else if c = '[' then parseItems fuel (skipWs rest) []
      else if c = 't' then
        match dropLit ['r', 'u', 'e'] rest with
        | some cs' => Except.ok (JValue.bool true, cs')
        | none => Except.error "Expecting value"
      else if c = 'f' then
        match dropLit ['a', 'l', 's', 'e'] rest with
        | some cs' => Except.ok (JValue.bool false, cs')
        | none => Except.error "Expecting value"
      else if c = 'n' then
        match dropLit ['u', 'l', 'l'] rest with
        | some cs' => Except.ok (JValue.null, cs')
        | none => Except.error "Expecting value"
      else if c = '-' then
        match rest with
        | d :: _ =>
          if d.isDigit then
            let (n, cs') := scanDigits 0 rest
            Except.ok (JValue.num (-(Int.ofNat n)), cs')
          else Except.error "Expecting value"
        | [] => Except.error "Expecting value"
      else if c.isDigit then
        let (n, cs') := scanDigits (c.toNat - 48) rest
        Except.ok (JValue.num (Int.ofNat n), cs')
      else Except.error "Expecting value"

def parseMembers : Nat → List Char → List (String × JValue) →
    Except String (JValue × List Char)
  | 0, _, _ => Except.error "Nesting too deep"
  | fuel + 1, cs, acc =>
    match cs with
    | [] => Except.error "Unterminated object"
    | c :: rest =>
      if c = Char.ofNat 125 && acc.isEmpty then Except.ok (JValue.obj [], rest)
      else if c = '"' then
        match scanStr false [] rest with
        | Except.error e => Except.error e
        | Except.ok (k, cs1) =>
          match skipWs cs1 with
          | ':' :: cs2 =>
            match parseVal fuel cs2 with
            | Except.error e => Except.error e
            | Except.ok (v, cs3) =>
              match skipWs cs3 with
              | ',' :: cs4 => parseMembers fuel (skipWs cs4) (acc ++ [(k, v)])
              | d :: cs4 =>
                if d = Char.ofNat 125 then Except.ok (JValue.obj (acc ++ [(k, v)]), cs4)
                else Except.error "Expecting comma"
              | [] => Except.error "Unterminated object"
          | _ => Except.error "Expecting colon"
      else Except.error "Expecting property name"

def parseItems : Nat → List Char → List JValue → Except String (JValue × List Char)
  | 0, _, _ => Except.error "Nesting too deep"
  | fuel + 1, cs, acc =>
    match cs with
    | [] => Except.error "Unterminated array"
    | c :: _ =>
      if c = ']' && acc.isEmpty then
        match cs with
        | _ :: rest => Except.ok (JValue.arr [], rest)
        | [] => Except.error "Unterminated array"
      else
        match parseVal fuel cs with
        | Except.error e => Except.error e
        | Except.ok (v, cs1) =>
          match skipWs cs1 with
          | ',' :: cs2 => parseItems fuel (skipWs cs2) (acc ++ [v])
          | d :: cs2 =>
            if d = ']' then Except.ok (JValue.arr (acc ++ [v]), cs2)
            else Except.error "Expecting comma"
          | [] => Except.error "Unterminated array"
end

/-- The embedding of Python `json.loads`: parse one JSON value and require
only whitespace to follow. -/
def jsonParse (s : String) : Except String JValue :=
  match parseVal (2 * s.data.length + 4) s.data with
  | Except.error e => Except.error e
  | Except.ok (v, rest) =>
    if (skipWs rest).isEmpty then Except.ok v else Except.error "Extra data"

/-- The `except` branch of `analyze_query`: the error dict
`\x7b"status": "error", "error": str(e), "raw_response": content\x7d`. -/
def errorDict (e : String) (raw : String) : JValue :=
  JValue.obj [("status", JValue.str "error"), ("error", JValue.str e),
              ("raw_response", JValue.str raw)]

/-- src/agent.py `analyze_query`, given the text content of the model's reply:
`json.loads` the content, and on a parse failure return the error dict with the
raw reply preserved.  The surrounding model invocation is modelled by
`analyzeQueryWithCall`. -/
def analyzeQuery (content : String) : JValue :=
  match jsonParse content with
  | Except.ok v => v
  | Except.error e => errorDict e content

/-- src/agent.py `analyze_query` including the `litellm.completion` call,
which sits outside the `try` block: a failure of the model invocation itself
(`Except.error`) propagates to the caller, while the reply-handling never
produces an error. -/
def analyzeQueryWithCall (modelCall : Except String String) : Except String JValue :=
  match modelCall with
  | Except.error e => Except.error e
  | Except.ok content => Except.ok (analyzeQuery content)

example : jsonParse "\x7b\"status\": \"incomplete\", \"question\": \"Which area?\"\x7d" =
    Except.ok (JValue.obj [("status", JValue.str "incomplete"),
      ("question", JValue.str "Which area?")]) := rfl

example : jsonParse " [1, -2, true, null] " =
    Except.ok (JValue.arr [JValue.num 1, JValue.num (-2), JValue.bool true, JValue.null]) := rfl

example : jsonParse "hello" = Except.error "Expecting value" := rfl

example : analyzeQuery "nope" = errorDict "Expecting value" "nope" := rfl

/-- A MongoDB document: an association list of field name to value. -/
abbrev Doc := List (String × JValue)

/-- Substring test on character lists: does `pat` occur as a prefix of `s`? -/
def listStarts : List Char → List Char → Bool
  | [], _ => true
  | _ :: _, [] => false
  | p :: ps, c :: cs => p = c && listStarts ps cs

/-- Substring test on character lists: does `pat` occur anywhere in `s`? -/
def listHasSub (pat : List Char) : List Char → Bool
  | [] => pat.isEmpty
  | c :: cs => listStarts pat (c :: cs) || listHasSub pat cs

/-- Substring containment on strings. -/
def hasSubstr (s pat : String) : Bool :=
  listHasSub pat.data s.data

/-- One Mongo comparison operator applied to a document's field value
(`none` when the field is absent). -/
def opMatch (op : String) (arg : JValue) (dv : Option JValue) : Bool :=
  match dv, arg with
  | some (JValue.num a), JValue.num b =>
    if op = "$lte" then a ≤ b
    else if op = "$lt" then a < b
    else if op = "$gte" then a ≥ b
    else if op = "$gt" then a > b
    else if op = "$eq" then a == b
    else if op = "$ne" then !(a == b)
    else false
  | _, _ =>
    if op = "$eq" then dv == some arg
    else if op = "$ne" then !(dv == some arg)
    else false

/-- One filter condition applied to a document's field value: either an
operator object (`$lte`, `$regex` with `$options: "i"`, ...) or a literal
equality.  `$regex` is modelled for the literal (metacharacter-free)
patterns the system prompt instructs the model to emit, i.e. substring
containment, case-insensitive when `$options` is `"i"`. -/
def condMatch (cond : JValue) (dv : Option JValue) : Bool :=
  match cond with
  | JValue.obj ops =>
    if ops.any (fun p => p.1.startsWith "$") then
      ops.all (fun p =>
        if p.1 = "$regex" then
          match p.2, dv with
          | JValue.str pat, some (JValue.str s) =>
            if isStrVal (dictGet ops "$options") "i" then
              hasSubstr (pyLower s) (pyLower pat)
            else hasSubstr s pat
          | _, _ => false
        else if p.1 = "$options" then true
        else opMatch p.1 p.2 dv)
    else dv == some cond
  | _ => dv == some cond

/-- Does a document satisfy a Mongo filter (conjunction over the filter's
fields)? -/
def mongoMatch (filter : List (String × JValue)) (doc : Doc) : Bool :=
  filter.all (fun kv => condMatch kv.2 (dictGet doc kv.1))

/-- src/agent.py `search_properties`: `list(collection.find(filter_dict))`
over the collection's documents in their stored order. -/
def searchProperties (filter : List (String × JValue)) (collection : List Doc) : List Doc :=
  collection.filter (fun d => mongoMatch filter d)

/-- Python `prop.get(k, 'N/A')` rendered by `str()` inside an f-string. -/
def pyGetS (d : Doc) (k : String) : String :=
  match dictGet d k with
  | some v => pyStr v
  | none => "N/A"

/-- The per-listing block of src/agent.py `format_results` (`prop_str`). -/
def propStr (prop : Doc) : String :=
  "Property Name : \"" ++ pyGetS prop "Property Name" ++ "\"\n" ++
  "flatType : \"" ++ pyGetS prop "flatType" ++ "\"\n" ++
  "locality : \"" ++ pyGetS prop "locality" ++ "\"\n" ++
  "Rent/Buy : \"" ++ pyGetS prop "Rent/Buy" ++ "\"\n" ++
  "Description : \"" ++ pyGetS prop "Description" ++ "\"\n" ++
  "price : " ++ pyGetS prop "price" ++ "\n"

/-- src/agent.py `format_results`: the fixed message on an empty result set,
otherwise the newline-join of the per-listing blocks in input order. -/
def formatResults (properties : List Doc) : String :=
  if properties.isEmpty then "No properties found matching your criteria."
  else String.intercalate "\n" (properties.map propStr)

/-- Conversation roles. -/
inductive Role where
  | user : Role
  | assistant : Role
deriving DecidableEq

/-- One conversation turn, as appended to `conversation_history`. -/
structure Turn where
  role : Role
  content : String
deriving DecidableEq

/-- How one iteration of a presentation loop ends: proceed to the next
input, terminate the session, or raise an uncaught Python exception. -/
inductive Outcome where
  | next : Outcome
  | halt : Outcome
  | crash : Outcome
deriving DecidableEq

/-- Observable result of one CLI loop iteration: the loop outcome, the
conversation history afterwards, the number of language-model calls and
database queries made, and the lines printed. -/
structure CliOut where
  outcome : Outcome
  history : List Turn
  llmCalls : Nat
  dbQueries : Nat
  printed : List String
deriving DecidableEq

/-- Is the (stripped) CLI input the exit sentinel? -/
def isExitInput (rawInput : String) : Bool :=
  pyLower (pyStrip rawInput) == "exit" || pyLower (pyStrip rawInput) == "quit"

/-- The branch of src/agent.py `property_search_flow` after `analyze_query`
has returned `analysis`: error, incomplete, complete-with-filters, or the
generic fallback.  Python dict/attribute errors on unexpected shapes
(non-dict analysis, missing `question` key, non-string question in
`"\n" + analysis["question"]`, non-dict filters passed to `find`) are the
`crash` outcome. -/
def cliRespond (refineAnswer : String) (analysis : JValue)
    (history1 : List Turn) (collection : List Doc) : CliOut :=
  match analysis with
  | JValue.obj fs =>
    if isStrVal (dictGet fs "status") "error" then
      ⟨Outcome.next, history1, 1, 0,
        [match dictGet fs "raw_response" with
         | some v => pyStr v
         | none => "No response received."]⟩
    else if isStrVal (dictGet fs "status") "incomplete" then
      match dictGet fs "question" with
      | some (JValue.str q) =>
        ⟨Outcome.next, history1 ++ [⟨Role.assistant, q⟩], 1, 0, ["\n" ++ q]⟩
      | some _ => ⟨Outcome.crash, history1, 1, 0, []⟩
      | none => ⟨Outcome.crash, history1, 1, 0, []⟩
    else if isStrVal (dictGet fs "status") "complete" && hasKey fs "filters" then
      match dictGet fs "filters" with
      | some (JValue.obj f) =>
        let results := searchProperties f collection
        if pyLower refineAnswer == "y" || pyLower refineAnswer == "yes" then
          ⟨Outcome.next, history1, 1, 1,
            ["Searching properties:", "\n" ++ formatResults results,
             "Please provide additional filters or modifications"]⟩
        else
          ⟨Outcome.halt, history1, 1, 1,
            ["Searching properties:", "\n" ++ formatResults results,
             "Thank you for using Property Search!"]⟩
      | some _ => ⟨Outcome.crash, history1, 1, 1, ["Searching properties:"]⟩
      | none => ⟨Outcome.crash, history1, 1, 0, []⟩
    else
      ⟨Outcome.next, history1, 1, 0,
        ["\nSorry, I could not process your request. Please try again."]⟩
  | _ => ⟨Outcome.crash, history1, 1, 0, []⟩

/-- One iteration of the src/agent.py `property_search_flow` loop, given the
raw user input, the model's reply text for this turn, and the answer to the
refine prompt (consulted only in the complete branch). -/
def cliStep (rawInput reply refineAnswer : String) (history : List Turn)
    (collection : List Doc) : CliOut :=
  let input := pyStrip rawInput
  if isExitInput rawInput then
    ⟨Outcome.halt, history, 0, 0, ["Goodbye!"]⟩
  else
    cliRespond refineAnswer (analyzeQuery reply)
      (history ++ [⟨Role.user, input⟩]) collection

/-- Session state of the Streamlit app (src/app.py `st.session_state`). -/
structure AppState where
  conversationHistory : List Turn
  filters : JValue
  results : Option (List Doc)
  lastQuestion : Option JValue

/-- Observable result of one Streamlit interaction: the session state
afterwards, whether `st.stop()` ran, whether the script crashed, the number
of language-model calls and database queries, and the error/info text shown
by the handler itself. -/
structure AppOut where
  state : AppState
  stopped : Bool
  crashed : Bool
  llmCalls : Nat
  dbQueries : Nat
  shown : List String

/-- src/app.py, Search-button handler (lines 19-38), given the box content
and the model's reply text.  The handler runs only when the button is
pressed and `user_input.strip()` is truthy; an empty input is a no-op. -/
def appSearchStep (userInput reply : String) (collection : List Doc)
    (st : AppState) : AppOut :=
  if pyStrip userInput == "" then ⟨st, false, false, 0, 0, []⟩
  else
    let analysis := analyzeQuery reply
    let hist1 := st.conversationHistory ++ [⟨Role.user, userInput⟩]
    match analysis with
    | JValue.obj fs =>
      if isStrVal (dictGet fs "status") "error" then
        ⟨⟨hist1, st.filters, st.results, st.lastQuestion⟩, true, false, 1, 0,
          ["Sorry, there was an error understanding your request.",
           match dictGet fs "raw_response" with
           | some v => pyStr v
           | none => "No response received."]⟩
      else if isStrVal (dictGet fs "status") "incomplete" then
        match dictGet fs "question" with
        | some q => ⟨⟨hist1, st.filters, none, some q⟩, false, false, 1, 0, []⟩
        | none => ⟨⟨hist1, st.filters, st.results, st.lastQuestion⟩, false, true, 1, 0, []⟩
      else if isStrVal (dictGet fs "status") "complete" && hasKey fs "filters" then
        match dictGet fs "filters" with
        | some (JValue.obj f) =>
          ⟨⟨hist1, JValue.obj f, some (searchProperties f collection), none⟩,
            false, false, 1, 1, []⟩
        | some v => ⟨⟨hist1, v, st.results, st.lastQuestion⟩, false, true, 1, 1, []⟩
        | none => ⟨⟨hist1, st.filters, st.results, st.lastQuestion⟩, false, true, 1, 0, []⟩
      else
        ⟨⟨hist1, st.filters, none, none⟩, false, false, 1, 0,
          ["Sorry, I could not process your request. Please try again."]⟩
    | _ => ⟨⟨hist1, st.filters, st.results, st.lastQuestion⟩, false, true, 1, 0, []⟩

/-- src/app.py, Submit-Clarification handler (lines 43-56).  Identical to
the search handler except that it has no `status == "error"` branch: an
error-status reply falls through to the generic message. -/
def appClarifyStep (clarification reply : String) (collection : List Doc)
    (st : AppState) : AppOut :=
  if pyStrip clarification == "" then ⟨st, false, false, 0, 0, []⟩
  else
    let analysis := analyzeQuery reply
    let hist1 := st.conversationHistory ++ [⟨Role.user, clarification⟩]
    match analysis with
    | JValue.obj fs =>
      if isStrVal (dictGet fs "status") "incomplete" then
        match dictGet fs "question" with
        | some q => ⟨⟨hist1, st.filters, none, some q⟩, false, false, 1, 0, []⟩
        | none => ⟨⟨hist1, st.filters, st.results, st.lastQuestion⟩, false, true, 1, 0, []⟩
      else if isStrVal (dictGet fs "status") "complete" && hasKey fs "filters" then
        match dictGet fs "filters" with
        | some (JValue.obj f) =>
          ⟨⟨hist1, JValue.obj f, some (searchProperties f collection), none⟩,
            false, false, 1, 1, []⟩
        | some v => ⟨⟨hist1, v, st.results, st.lastQuestion⟩, false, true, 1, 1, []⟩
        | none => ⟨⟨hist1, st.filters, st.results, st.lastQuestion⟩, false, true, 1, 0, []⟩
      else
        ⟨⟨hist1, st.filters, none, none⟩, false, false, 1, 0,
          ["Sorry, I could not process your request. Please try again."]⟩
    | _ => ⟨⟨hist1, st.filters, st.results, st.lastQuestion⟩, false, true, 1, 0, []⟩

/-- src/app.py lines 40-41: the pending-question panel, shown when
`st.session_state.last_question` is truthy. -/
def appRenderQuestion (st : AppState) : List String :=
  match st.lastQuestion with
  | some q => if pyTruthy q then [pyStr q] else []
  | none => []

/-- The per-listing lines of the src/app.py results panel (lines 61-68). -/
def appPropLines (prop : Doc) : List String :=
  ["**Property Name:** " ++ pyGetS prop "Property Name",
   "flatType: " ++ pyGetS prop "flatType",
   "locality: " ++ pyGetS prop "locality",
   "Rent/Buy: " ++ pyGetS prop "Rent/Buy",
   "Description: " ++ pyGetS prop "Description",
   "price: " ++ pyGetS prop "price",
   "---"]

/-- src/app.py lines 58-70: the results panel, shown when
`st.session_state.results is not None`; a non-empty list renders each
listing, an empty one renders the fixed warning. -/
def appResultsPanel : Option (List Doc) → List String
  | none => []
  | some props =>
    "Search Results" ::
      (if props.isEmpty then ["No properties found matching your criteria."]
       else (props.map appPropLines).flatten)

/-- Spec-side (§3, §4.1): the expected reply structure — a record with a
status discriminator plus either a question (for incomplete) or a filters
object (for complete). -/
def specExpectedShape : JValue → Bool
  | JValue.obj fs =>
    (isStrVal (dictGet fs "status") "incomplete" &&
      (match dictGet fs "question" with
       | some (JValue.str _) => true
       | _ => false))
    || (isStrVal (dictGet fs "status") "complete" &&
      (match dictGet fs "filters" with
       | some (JValue.obj _) => true
       | _ => false))
  | _ => false

/-- Spec-side (§3): the Failed variant — a record with status `"error"`
carrying an error description and the raw model text. -/
def specFailedVariant (a : JValue) : Bool :=
  match a with
  | JValue.obj fs =>
    isStrVal (dictGet fs "status") "error" && hasKey fs "error" && hasKey fs "raw_response"
  | _ => false

/-- Does the interpretation carry a question key (on any shape)? -/
def hasKeyJ : JValue → String → Bool
  | JValue.obj fs, k => hasKey fs k
  | _, _ => false

/-- The guard of the complete branch in both presentation surfaces:
`analysis.get("status") == "complete" and "filters" in analysis`. -/
def completeWithFilters (a : JValue) : Bool :=
  match a with
  | JValue.obj fs => isStrVal (dictGet fs "status") "complete" && hasKey fs "filters"
  | _ => false

/-- The filter expression carried by a Complete interpretation, when the
complete-branch guard holds. -/
def completeFiltersOf (a : JValue) : Option JValue :=
  match a with
  | JValue.obj fs =>
    if isStrVal (dictGet fs "status") "complete" && hasKey fs "filters" then
      dictGet fs "filters"
    else none
  | _ => none

/-- Spec-side (§8): the fixed field set of a well-formed filter expression. -/
def specAllowedFields : List String := ["flatType", "locality", "price"]

/-- Spec-side (§8): a numeric field's value is numeric — either a numeral or
an operator object with numeric operands. -/
def specNumericOk : JValue → Bool
  | JValue.num _ => true
  | JValue.obj ops =>
    !ops.isEmpty && ops.all (fun p =>
      p.1.startsWith "$" && (match p.2 with
        | JValue.num _ => true
        | _ => false))
  | _ => false

/-- Spec-side (§8): the filter contains only fields from the fixed set, and
the numeric field (price) has a numeric value. -/
def specFilterSchemaOk : JValue → Bool
  | JValue.obj fs =>
    fs.all (fun p =>
      specAllowedFields.contains p.1 && (if p.1 = "price" then specNumericOk p.2 else true))
  | _ => false

/-- Spec-side (§4.3): one labeled line of a rendered listing, defaulting to
the `N/A` placeholder when the field is absent. -/
def specFieldLine (d : Doc) (label : String) (key : String) (quoted : Bool) : String :=
  label ++ " : " ++ (if quoted then "\"" ++ pyGetS d key ++ "\"" else pyGetS d key) ++ "\n"

/-- Spec-side (§4.3): a listing rendered as the fixed set of labeled fields
(name, unit type, locality, transaction type, description, price). -/
def specRenderProp (d : Doc) : String :=
  String.join
    [specFieldLine d "Property Name" "Property Name" true,
     specFieldLine d "flatType" "flatType" true,
     specFieldLine d "locality" "locality" true,
     specFieldLine d "Rent/Buy" "Rent/Buy" true,
     specFieldLine d "Description" "Description" true,
     specFieldLine d "price" "price" false]

theorem propStr_eq_spec (d : Doc) : propStr d = specRenderProp d := by
  simp only [propStr, specRenderProp, specFieldLine, String.join, List.foldl,
    if_true, if_false, Bool.false_eq_true, Bool.true_eq_false, eq_self_iff_true,
    String.empty_append, String.append_assoc,
    show ("Property Name : \"" : String) = "Property Name" ++ (" : " ++ "\"") from rfl,
    show ("flatType : \"" : String) = "flatType" ++ (" : " ++ "\"") from rfl,
    show ("locality : \"" : String) = "locality" ++ (" : " ++ "\"") from rfl,
    show ("Rent/Buy : \"" : String) = "Rent/Buy" ++ (" : " ++ "\"") from rfl,
    show ("Description : \"" : String) = "Description" ++ (" : " ++ "\"") from rfl,
    show ("price : " : String) = "price" ++ " : " from rfl,
    show ("\"\n" : String) = "\"" ++ "\n" from rfl]

/-- C5: for the empty list of matching listings, the rendered output is
exactly the string "No properties found matching your criteria." (not an
empty list and not an error), in both presentation variants: the CLI's
`format_results` and the app's results panel (which shows the fixed warning
under its header). -/
theorem empty_results_message :
    formatResults [] = "No properties found matching your criteria." ∧
    appResultsPanel (some []) =
      ["Search Results", "No properties found matching your criteria."] :=
  ⟨rfl, rfl⟩

/-- C6: for every non-empty list of listing records, `format_results` is the
newline-join, in input order and without truncation (one block per record),
of the spec's fixed labeled-field rendering (name, unit type, locality,
transaction type, description, price, each defaulting to "N/A" when
absent). -/
theorem format_results_fixed_fields (props : List Doc) (h : props ≠ []) :
    formatResults props = String.intercalate "\n" (props.map specRenderProp) ∧
    (props.map specRenderProp).length = props.length := by
  constructor
  · have hne : props.isEmpty = false := by
      cases props with
      | nil => exact absurd rfl h
      | cons a l => rfl
    simp only [formatResults, hne, Bool.false_eq_true, if_false,
      show propStr = specRenderProp from funext propStr_eq_spec]
  · exact List.length_map _ _

/-- Witness for C6 at a concrete two-record list, the second record having
every field absent. -/
theorem format_results_fixed_fields_witness :
    formatResults [[("Property Name", JValue.str "Skyline"), ("price", JValue.num 15000)], []] =
      String.intercalate "\n"
        (([[("Property Name", JValue.str "Skyline"), ("price", JValue.num 15000)], []] :
          List Doc).map specRenderProp) ∧
    (([[("Property Name", JValue.str "Skyline"), ("price", JValue.num 15000)], []] :
      List Doc).map specRenderProp).length =
      ([[("Property Name", JValue.str "Skyline"), ("price", JValue.num 15000)], []] :
        List Doc).length :=
  format_results_fixed_fields _ (List.cons_ne_nil _ _)

/-- C8: invoking `search_properties` twice with an identical filter against
unchanged underlying data yields identical result sets — the same records
and the same cardinality (the embedding of `collection.find` is a pure
filter over the stored documents, so repetition cannot differ). -/
theorem search_properties_idempotent (filter : List (String × JValue))
    (collection : List Doc) :
    searchProperties filter collection = searchProperties filter collection ∧
    (searchProperties filter collection).length =
      (searchProperties filter collection).length :=
  ⟨rfl, rfl⟩

/-- C9: on the exit sentinel ("exit" or "quit") the CLI session terminates
with no language-model call, no database query, an unchanged conversation
history, and only the goodbye message printed. -/
theorem exit_sentinel_terminates (rawInput reply refineAnswer : String)
    (history : List Turn) (collection : List Doc)
    (h : rawInput = "exit" ∨ rawInput = "quit") :
    cliStep rawInput reply refineAnswer history collection =
      ⟨Outcome.halt, history, 0, 0, ["Goodbye!"]⟩ := by
  rcases h with h | h <;> subst h <;> rfl

/-- Witness for C9 at the concrete input "exit". -/
theorem exit_sentinel_terminates_witness :
    cliStep "exit" "any reply" "no" [⟨Role.user, "hi"⟩] [] =
      ⟨Outcome.halt, [⟨Role.user, "hi"⟩], 0, 0, ["Goodbye!"]⟩ :=
  exit_sentinel_terminates "exit" "any reply" "no" [⟨Role.user, "hi"⟩] [] (Or.inl rfl)

/-- C10: `analyze_query`'s no-raise guarantee covers only the parsing of the
model's reply: a failure of the model invocation itself (which sits outside
the `try` block) propagates unchanged to the caller instead of being turned
into the Failed variant, while a successful invocation never raises. -/
theorem model_call_exception_propagates :
    (∀ e : String, analyzeQueryWithCall (Except.error e) = Except.error e) ∧
    (∀ reply : String, analyzeQueryWithCall (Except.ok reply) = Except.ok (analyzeQuery reply)) :=
  ⟨fun _ => rfl, fun _ => rfl⟩

theorem isStrVal_unique {v : Option JValue} {s t : String}
    (hs : isStrVal v s = true) (ht : isStrVal v t = true) : s = t := by
  cases v with
  | none => simp [isStrVal] at hs
  | some w =>
    cases w <;> simp [isStrVal] at hs ht
    rw [← hs]
    exact ht

theorem dictGet_isSome_of_hasKey : ∀ (fs : List (String × JValue)) (k : String),
    hasKey fs k = true → (dictGet fs k).isSome = true := by
  intro fs k
  induction fs with
  | nil => intro h; simp [hasKey] at h
  | cons p rest ih =>
    intro h
    simp only [dictGet]
    rcases hd : dictGet rest k with _ | w
    · have h' : p.1 = k ∨ hasKey rest k = true := by
        simpa [hasKey, List.any_cons, Bool.or_eq_true, decide_eq_true_eq] using h
      rcases h' with h' | h'
      · simp [h']
      · have hx := ih h'
        rw [hd] at hx
        simp at hx
    · simp

theorem cliRespond_counts (refineAnswer : String) (a : JValue) (h1 : List Turn)
    (col : List Doc) :
    (cliRespond refineAnswer a h1 col).llmCalls = 1 ∧
    (cliRespond refineAnswer a h1 col).dbQueries =
      (if completeWithFilters a then 1 else 0) := by
  cases a with
  | obj fs =>
    have hexcl : ∀ s t : String, s ≠ t → isStrVal (dictGet fs "status") s = true →
        isStrVal (dictGet fs "status") t = false := by
      intro s t hst hs
      cases ht : isStrVal (dictGet fs "status") t
      · rfl
      · exact absurd (isStrVal_unique hs ht) hst
    simp only [cliRespond, completeWithFilters]
    by_cases he : isStrVal (dictGet fs "status") "error" = true
    · have hc := hexcl "error" "complete" (by decide) he
      simp [he, hc]
    · by_cases hi : isStrVal (dictGet fs "status") "incomplete" = true
      · have hc := hexcl "incomplete" "complete" (by decide) hi
        rcases hq : dictGet fs "question" with _ | w
        · simp [he, hi, hc, hq]
        · cases w <;> simp [he, hi, hc, hq]
      · by_cases hcf : (isStrVal (dictGet fs "status") "complete" && hasKey fs "filters") = true
        · have hkey : hasKey fs "filters" = true := by
            have hx := hcf
            simp only [Bool.and_eq_true] at hx
            exact hx.2
          have hsome := dictGet_isSome_of_hasKey fs "filters" hkey
          rcases hget : dictGet fs "filters" with _ | w
          · rw [hget] at hsome
            simp at hsome
          · cases w <;> simp [he, hi, hcf, hget]
            split <;> simp
        · simp [he, hi, hcf]
  | null => simp [cliRespond, completeWithFilters]
  | bool b => simp [cliRespond, completeWithFilters]
  | num n => simp [cliRespond, completeWithFilters]
  | str s => simp [cliRespond, completeWithFilters]
  | arr xs => simp [cliRespond, completeWithFilters]

theorem appSearch_counts (userInput reply : String) (col : List Doc) (st : AppState) :
    (appSearchStep userInput reply col st).llmCalls =
      (if pyStrip userInput == "" then 0 else 1) ∧
    (appSearchStep userInput reply col st).dbQueries =
      (if !(pyStrip userInput == "") && completeWithFilters (analyzeQuery reply)
       then 1 else 0) := by
  by_cases hempty : (pyStrip userInput == "") = true
  · simp [appSearchStep, hempty]
  · have hb : (pyStrip userInput == "") = false := by
      cases hx : (pyStrip userInput == "")
      · rfl
      · exact absurd hx hempty
    simp only [appSearchStep, hb, Bool.false_eq_true, if_false, Bool.not_false,
      Bool.true_and]
    generalize analyzeQuery reply = a
    cases a with
    | obj fs =>
      have hexcl : ∀ s t : String, s ≠ t → isStrVal (dictGet fs "status") s = true →
          isStrVal (dictGet fs "status") t = false := by
        intro s t hst hs
        cases ht : isStrVal (dictGet fs "status") t
        · rfl
        · exact absurd (isStrVal_unique hs ht) hst
      simp only [completeWithFilters]
      by_cases he : isStrVal (dictGet fs "status") "error" = true
      · have hc := hexcl "error" "complete" (by decide) he
        simp [he, hc]
      · by_cases hi : isStrVal (dictGet fs "status") "incomplete" = true
        · have hc := hexcl "incomplete" "complete" (by decide) hi
          rcases hq : dictGet fs "question" with _ | w
          · simp [he, hi, hc, hq]
          · simp [he, hi, hc, hq]
        · by_cases hcf : (isStrVal (dictGet fs "status") "complete" && hasKey fs "filters") = true
          · have hkey : hasKey fs "filters" = true := by
              have hx := hcf
              simp only [Bool.and_eq_true] at hx
              exact hx.2
            have hsome := dictGet_isSome_of_hasKey fs "filters" hkey
            rcases hget : dictGet fs "filters" with _ | w
            · rw [hget] at hsome
              simp at hsome
            · cases w <;> simp [he, hi, hcf, hget]
          · simp [he, hi, hcf]
    | null => simp [completeWithFilters]
    | bool b => simp [completeWithFilters]
    | num n => simp [completeWithFilters]
    | str s => simp [completeWithFilters]
    | arr xs => simp [completeWithFilters]

theorem appClarify_counts (clarification reply : String) (col : List Doc) (st : AppState) :
    (appClarifyStep clarification reply col st).llmCalls =
      (if pyStrip clarification == "" then 0 else 1) ∧
    (appClarifyStep clarification reply col st).dbQueries =
      (if !(pyStrip clarification == "") && completeWithFilters (analyzeQuery reply)
       then 1 else 0) := by
  by_cases hempty : (pyStrip clarification == "") = true
  · simp [appClarifyStep, hempty]
  · have hb : (pyStrip clarification == "") = false := by
      cases hx : (pyStrip clarification == "")
      · rfl
      · exact absurd hx hempty
    simp only [appClarifyStep, hb, Bool.false_eq_true, if_false, Bool.not_false,
      Bool.true_and]
    generalize analyzeQuery reply = a
    cases a with
    | obj fs =>
      have hexcl : ∀ s t : String, s ≠ t → isStrVal (dictGet fs "status") s = true →
          isStrVal (dictGet fs "status") t = false := by
        intro s t hst hs
        cases ht : isStrVal (dictGet fs "status") t
        · rfl
        · exact absurd (isStrVal_unique hs ht) hst
      simp only [completeWithFilters]
      by_cases hi : isStrVal (dictGet fs "status") "incomplete" = true
      · have hc := hexcl "incomplete" "complete" (by decide) hi
        rcases hq : dictGet fs "question" with _ | w
        · simp [hi, hc, hq]
        · simp [hi, hc, hq]
      · by_cases hcf : (isStrVal (dictGet fs "status") "complete" && hasKey fs "filters") = true
        · have hkey : hasKey fs "filters" = true := by
            have hx := hcf
            simp only [Bool.and_eq_true] at hx
            exact hx.2
          have hsome := dictGet_isSome_of_hasKey fs "filters" hkey
          rcases hget : dictGet fs "filters" with _ | w
          · rw [hget] at hsome
            simp at hsome
          · cases w <;> simp [hi, hcf, hget]
        · simp [hi, hcf]
    | null => simp [completeWithFilters]
    | bool b => simp [completeWithFilters]
    | num n => simp [completeWithFilters]
    | str s => simp [completeWithFilters]
    | arr xs => simp [completeWithFilters]

/-- C7: in every user turn of either presentation surface, exactly one
language-model call is made (none on the exit sentinel or an empty form
input), at most one database query follows, and the database query count is
1 exactly when that turn's interpretation satisfies the complete-branch
guard (status "complete" with a filters key) — never on Failed, Incomplete,
or unrecognized shapes. -/
theorem one_llm_call_one_db_query_per_turn (rawInput reply refineAnswer : String)
    (history : List Turn) (collection : List Doc) (st : AppState) :
    ((cliStep rawInput reply refineAnswer history collection).llmCalls =
        (if isExitInput rawInput then 0 else 1) ∧
      (cliStep rawInput reply refineAnswer history collection).dbQueries =
        (if !isExitInput rawInput && completeWithFilters (analyzeQuery reply)
         then 1 else 0)) ∧
    ((appSearchStep rawInput reply collection st).llmCalls =
        (if pyStrip rawInput == "" then 0 else 1) ∧
      (appSearchStep rawInput reply collection st).dbQueries =
        (if !(pyStrip rawInput == "") && completeWithFilters (analyzeQuery reply)
         then 1 else 0)) ∧
    ((appClarifyStep rawInput reply collection st).llmCalls =
        (if pyStrip rawInput == "" then 0 else 1) ∧
      (appClarifyStep rawInput reply collection st).dbQueries =
        (if !(pyStrip rawInput == "") && completeWithFilters (analyzeQuery reply)
         then 1 else 0)) := by
  refine ⟨?_, appSearch_counts rawInput reply collection st,
    appClarify_counts rawInput reply collection st⟩
  by_cases hexit : isExitInput rawInput = true
  · simp [cliStep, hexit]
  · have hb : isExitInput rawInput = false := by
      cases hx : isExitInput rawInput
      · rfl
      · exact absurd hx hexit
    simp only [cliStep, hb, Bool.false_eq_true, if_false, Bool.not_false, Bool.true_and]
    exact cliRespond_counts refineAnswer (analyzeQuery reply)
      (history ++ [⟨Role.user, pyStrip rawInput⟩]) collection

/-- Does the interpretation carry the given status discriminator? -/
def statusIs (a : JValue) (s : String) : Bool :=
  match a with
  | JValue.obj fs => isStrVal (dictGet fs "status") s
  | _ => false

/-- Spec-side: can the reply text be parsed as the expected structure
(§4.1) at all? -/
def specParsesExpected (reply : String) : Bool :=
  match jsonParse reply with
  | Except.ok v => specExpectedShape v
  | Except.error _ => false

/-- Counterexample for C2: the reply `[]` is valid JSON but cannot be parsed
as the expected structure, yet `analyze_query` returns the parsed list
verbatim — not the Failed variant (no record, no status "error"). -/
theorem analyze_query_wrong_shape_not_failed :
    specParsesExpected "[]" = false ∧
    specFailedVariant (analyzeQuery "[]") = false ∧
    analyzeQuery "[]" = JValue.arr [] :=
  ⟨rfl, rfl, rfl⟩

/-- C2 (amended): for every model reply that `json.loads` fails to parse as
JSON, `analyze_query` returns the Failed variant — the record with status
"error" carrying the parse error and the raw reply text verbatim — and does
not raise; a reply that parses as JSON is returned as-is even when it does
not match the expected structure. -/
theorem analyze_query_parse_failure_failed_variant (reply e : String)
    (h : jsonParse reply = Except.error e) :
    analyzeQuery reply = errorDict e reply ∧
    specFailedVariant (analyzeQuery reply) = true := by
  have ha : analyzeQuery reply = errorDict e reply := by
    unfold analyzeQuery
    rw [h]
  exact ⟨ha, by rw [ha]; rfl⟩

/-- Witness for C2's amended theorem at a concrete non-JSON reply. -/
theorem analyze_query_parse_failure_failed_variant_witness :
    analyzeQuery "Sorry, I need more details" =
      errorDict "Expecting value" "Sorry, I need more details" ∧
    specFailedVariant (analyzeQuery "Sorry, I need more details") = true :=
  analyze_query_parse_failure_failed_variant "Sorry, I need more details"
    "Expecting value" rfl

/-- Counterexample for C3: a model reply whose filters object carries a
field outside the fixed set and a textual price still produces a Complete
interpretation, with the ill-formed filters passed through unvalidated. -/
theorem analyze_query_unvalidated_filter_fields :
    completeWithFilters (analyzeQuery
      "\x7b\"status\": \"complete\", \"filters\": \x7b\"bedrooms\": \"two\", \"price\": \"cheap\"\x7d\x7d") = true ∧
    completeFiltersOf (analyzeQuery
      "\x7b\"status\": \"complete\", \"filters\": \x7b\"bedrooms\": \"two\", \"price\": \"cheap\"\x7d\x7d") =
      some (JValue.obj [("bedrooms", JValue.str "two"), ("price", JValue.str "cheap")]) ∧
    specFilterSchemaOk
      (JValue.obj [("bedrooms", JValue.str "two"), ("price", JValue.str "cheap")]) = false :=
  ⟨rfl, rfl, rfl⟩

/-- C3 (amended): the Filter Expression of every Complete interpretation is
exactly the filters object of the successfully parsed model reply, passed
through with no validation — it is constrained to the fixed field set with
numeric values only to the extent that the model's own reply is. -/
theorem analyze_query_filters_passthrough (reply : String) (f : JValue)
    (h : completeFiltersOf (analyzeQuery reply) = some f) :
    ∃ v : JValue, jsonParse reply = Except.ok v ∧ analyzeQuery reply = v ∧
      completeFiltersOf v = some f := by
  cases hp : jsonParse reply with
  | ok v =>
    have ha : analyzeQuery reply = v := by
      unfold analyzeQuery
      rw [hp]
    rw [ha] at h
    exact ⟨v, rfl, ha, h⟩
  | error e =>
    have ha : analyzeQuery reply = errorDict e reply := by
      unfold analyzeQuery
      rw [hp]
    rw [ha] at h
    have hnone : completeFiltersOf (errorDict e reply) = none := rfl
    rw [hnone] at h
    exact Option.noConfusion h

/-- Witness for C3's amended theorem at a concrete well-formed reply. -/
theorem analyze_query_filters_passthrough_witness :
    ∃ v : JValue,
      jsonParse "\x7b\"status\": \"complete\", \"filters\": \x7b\"flatType\": \"3BHK\"\x7d\x7d" =
        Except.ok v ∧
      analyzeQuery "\x7b\"status\": \"complete\", \"filters\": \x7b\"flatType\": \"3BHK\"\x7d\x7d" = v ∧
      completeFiltersOf v = some (JValue.obj [("flatType", JValue.str "3BHK")]) :=
  analyze_query_filters_passthrough
    "\x7b\"status\": \"complete\", \"filters\": \x7b\"flatType\": \"3BHK\"\x7d\x7d"
    (JValue.obj [("flatType", JValue.str "3BHK")]) rfl

/-- Counterexample for C4: a parsed reply with status "incomplete" that
carries both a question and a filters key is returned verbatim by
`analyze_query`, so an interpretation can carry both payloads. -/
theorem analyze_query_result_both_question_and_filters :
    statusIs (analyzeQuery
      "\x7b\"status\": \"incomplete\", \"question\": \"Which area?\", \"filters\": \x7b\"flatType\": \"2BHK\"\x7d\x7d")
      "incomplete" = true ∧
    hasKeyJ (analyzeQuery
      "\x7b\"status\": \"incomplete\", \"question\": \"Which area?\", \"filters\": \x7b\"flatType\": \"2BHK\"\x7d\x7d")
      "question" = true ∧
    hasKeyJ (analyzeQuery
      "\x7b\"status\": \"incomplete\", \"question\": \"Which area?\", \"filters\": \x7b\"flatType\": \"2BHK\"\x7d\x7d")
      "filters" = true :=
  ⟨rfl, rfl, rfl⟩

/-- C4 (amended): the Failed variant that `analyze_query` itself constructs
on a parse failure carries neither a question nor a filters key (its keys
are exactly status, error, raw_response); parsed replies are returned
verbatim and may carry any combination of payloads. -/
theorem failed_variant_carries_neither (reply e : String)
    (h : jsonParse reply = Except.error e) :
    statusIs (analyzeQuery reply) "error" = true ∧
    hasKeyJ (analyzeQuery reply) "question" = false ∧
    hasKeyJ (analyzeQuery reply) "filters" = false := by
  have ha : analyzeQuery reply = errorDict e reply := by
    unfold analyzeQuery
    rw [h]
  rw [ha]
  exact ⟨rfl, rfl, rfl⟩

/-- Witness for C4's amended theorem at a concrete non-JSON reply. -/
theorem failed_variant_carries_neither_witness :
    statusIs (analyzeQuery "###") "error" = true ∧
    hasKeyJ (analyzeQuery "###") "question" = false ∧
    hasKeyJ (analyzeQuery "###") "filters" = false :=
  failed_variant_carries_neither "###" "Expecting value" rfl

/-- Counterexample for C1: in the form-based session, an Incomplete
interpretation stores the question but appends no assistant turn to the
conversation history — after the step the history holds only the user turn. -/
theorem app_incomplete_no_assistant_turn :
    statusIs (analyzeQuery
      "\x7b\"status\": \"incomplete\", \"question\": \"What is your budget?\"\x7d")
      "incomplete" = true ∧
    (appSearchStep "2BHK"
      "\x7b\"status\": \"incomplete\", \"question\": \"What is your budget?\"\x7d"
      [] ⟨[], JValue.obj [], none, none⟩).state.lastQuestion =
      some (JValue.str "What is your budget?") ∧
    (appSearchStep "2BHK"
      "\x7b\"status\": \"incomplete\", \"question\": \"What is your budget?\"\x7d"
      [] ⟨[], JValue.obj [], none, none⟩).state.conversationHistory =
      [⟨Role.user, "2BHK"⟩] ∧
    ((appSearchStep "2BHK"
      "\x7b\"status\": \"incomplete\", \"question\": \"What is your budget?\"\x7d"
      [] ⟨[], JValue.obj [], none, none⟩).state.conversationHistory.filter
        (fun t => t.role == Role.assistant)) = [] :=
  ⟨rfl, rfl, rfl, rfl⟩

/-- C1 (amended): on an Incomplete interpretation carrying question `q`, the
CLI loop prints `q`, appends it to the history as an assistant turn after the
user turn, and awaits the next input; both form-based handlers store `q` (so
the question panel displays it) and clear the results, but append only the
user turn to the conversation history — no assistant turn. -/
theorem incomplete_turn_question_handling (rawInput reply refineAnswer q : String)
    (history : List Turn) (collection : List Doc) (st : AppState)
    (fs : List (String × JValue))
    (ha : analyzeQuery reply = JValue.obj fs)
    (hs : dictGet fs "status" = some (JValue.str "incomplete"))
    (hq : dictGet fs "question" = some (JValue.str q))
    (hexit : isExitInput rawInput = false)
    (hne : (pyStrip rawInput == "") = false) :
    cliStep rawInput reply refineAnswer history collection =
      ⟨Outcome.next, history ++ [⟨Role.user, pyStrip rawInput⟩, ⟨Role.assistant, q⟩],
        1, 0, ["\n" ++ q]⟩ ∧
    appSearchStep rawInput reply collection st =
      ⟨⟨st.conversationHistory ++ [⟨Role.user, rawInput⟩], st.filters, none,
        some (JValue.str q)⟩, false, false, 1, 0, []⟩ ∧
    appClarifyStep rawInput reply collection st =
      ⟨⟨st.conversationHistory ++ [⟨Role.user, rawInput⟩], st.filters, none,
        some (JValue.str q)⟩, false, false, 1, 0, []⟩ ∧
    (q ≠ "" → appRenderQuestion (appSearchStep rawInput reply collection st).state = [q]) := by
  refine ⟨?_, ?_, ?_, ?_⟩
  · simp [cliStep, hexit, ha, cliRespond, hs, hq, isStrVal]
  · simp [appSearchStep, hne, ha, hs, hq, isStrVal]
  · simp [appClarifyStep, hne, ha, hs, hq, isStrVal]
  · intro hq0
    simp [appSearchStep, hne, ha, hs, hq, isStrVal, appRenderQuestion, pyTruthy, pyStr, hq0]

/-- Witness for C1's amended theorem at a concrete incomplete reply. -/
theorem incomplete_turn_question_handling_witness :
    cliStep "a flat"
      "\x7b\"status\": \"incomplete\", \"question\": \"Which area and budget?\"\x7d"
      "no" [] [] =
      ⟨Outcome.next, [⟨Role.user, "a flat"⟩, ⟨Role.assistant, "Which area and budget?"⟩],
        1, 0, ["\nWhich area and budget?"]⟩ ∧
    appSearchStep "a flat"
      "\x7b\"status\": \"incomplete\", \"question\": \"Which area and budget?\"\x7d"
      [] ⟨[], JValue.obj [], none, none⟩ =
      ⟨⟨[⟨Role.user, "a flat"⟩], JValue.obj [], none,
        some (JValue.str "Which area and budget?")⟩, false, false, 1, 0, []⟩ ∧
    appClarifyStep "a flat"
      "\x7b\"status\": \"incomplete\", \"question\": \"Which area and budget?\"\x7d"
      [] ⟨[], JValue.obj [], none, none⟩ =
      ⟨⟨[⟨Role.user, "a flat"⟩], JValue.obj [], none,
        some (JValue.str "Which area and budget?")⟩, false, false, 1, 0, []⟩ ∧
    ("Which area and budget?" ≠ "" →
      appRenderQuestion (appSearchStep "a flat"
        "\x7b\"status\": \"incomplete\", \"question\": \"Which area and budget?\"\x7d"
        [] ⟨[], JValue.obj [], none, none⟩).state = ["Which area and budget?"]) :=
  incomplete_turn_question_handling "a flat"
    "\x7b\"status\": \"incomplete\", \"question\": \"Which area and budget?\"\x7d"
    "no" "Which area and budget?" [] [] ⟨[], JValue.obj [], none, none⟩
    [("status", JValue.str "incomplete"), ("question", JValue.str "Which area and budget?")]
    rfl rfl rfl rfl rfl
